import Mathlib

/-!
Shallow embedding of the Wagi88/web-info reconnaissance tools
(`findingnemo.py`, `server_recon.py`, `info.py`).

Network I/O is modelled by explicit oracles: an HTTP oracle maps a URL to
either a network-level fault or an `HttpResponse`, and a TCP oracle maps a
(host, port) pair to either a fault or the integer code returned by
`socket.connect_ex` (0 on success).  Python strings are modelled as `List Char`;
Python's broad `except` clauses become total pattern matches on the oracle's
`Except` value, so worker totality in Lean is exactly the "no fault escapes the
worker" property of the source.
-/

namespace WebInfo

/-- Strings of the Python source, modelled as lists of characters. -/
abbrev Str := List Char

/-- Network-level fault taxonomy (the errors `requests` / `socket` can raise:
DNS failure, refused connection, timeout, transport error, malformed target).
All of them are subclasses of `requests.exceptions.RequestException` or are
swallowed by the bare `except:` clauses of the source. -/
inductive NetError
  | dnsFailure
  | connectionRefused
  | connectionTimeout
  | transportError
  | malformedTarget
deriving DecidableEq, Repr

/-- An HTTP response as the tools observe it: status code, body text and
header list. -/
structure HttpResponse where
  status : Nat
  body : Str
  headers : List (Str × Str)
deriving DecidableEq, Repr

/-- An HTTP oracle: what `requests.get url` returns for each URL. -/
abbrev Net := Str → Except NetError HttpResponse

/-- A TCP oracle: what `socket.connect_ex((host, port))` yields — a fault, or
the integer result code (0 = connection completed within the timeout). -/
abbrev Tcp := Str → Nat → Except NetError Nat

deriving instance DecidableEq for Except

/-- Boolean test whether an `Except` is a success (`ok`) value. -/
def isOkE {ε α : Type} : Except ε α → Bool
  | .ok _ => true
  | .error _ => false

/-- Python `needle.startswith(hay)` on character lists: `startsWith n h` is
true when `n` is an initial segment of `h`. -/
def startsWith : Str → Str → Bool
  | [], _ => true
  | _ :: _, [] => false
  | a :: as, b :: bs => a = b && startsWith as bs

/-- Python substring containment `needle in haystack` on character lists. -/
def containsSub (needle : Str) : Str → Bool
  | [] => needle.isEmpty
  | c :: rest => startsWith needle (c :: rest) || containsSub needle rest

/-- Python `str.lower()`. -/
def lowerList (s : Str) : Str := s.map Char.toLower

/-- Python `str.strip()`: drop whitespace from both ends. -/
def strip (s : Str) : Str :=
  ((s.dropWhile Char.isWhitespace).reverse.dropWhile Char.isWhitespace).reverse

/-- The string "http://". -/
def httpScheme : Str := "http://".toList

/-- The string "https://". -/
def httpsScheme : Str := "https://".toList

/-- The specification's tri-state verdict for a classified probe. -/
inductive Verdict
  | present
  | absent
  | indeterminate
deriving DecidableEq, Repr

/-! ## findingnemo.py -/

/-- One platform entry of `FindingNemo.load_platforms`: a URL template
(`urlBefore ++ username ++ urlAfter` models `url.format(username)`) and the
list of "absence marker" substrings under the key `error`. -/
structure PlatformData where
  urlBefore : Str
  urlAfter : Str
  error : List Str
deriving DecidableEq, Repr

/-- The URL `check_platform` probes: the platform template applied to the
username. -/
def probeUrl (pd : PlatformData) (username : Str) : Str :=
  pd.urlBefore ++ username ++ pd.urlAfter

/-- The third component of `check_platform`'s returned tuple, distinguishing
the three return sites: `"Success"`, `"Status: {code}"`, `"Error: {e}"`. -/
inductive CheckMsg
  | success
  | status (code : Nat)
  | error (e : NetError)
deriving DecidableEq, Repr

/-- The 4-tuple `(platform, url, found, message)` that `check_platform`
returns. -/
structure CheckResult where
  platform : Str
  url : Str
  found : Bool
  message : CheckMsg
deriving DecidableEq, Repr

/-- `FindingNemo.check_platform` (findingnemo.py lines 97–119): issue one GET;
on status 200 set `found` false iff some absence marker occurs
case-insensitively in the body; on any other status return `found = False`
with the status message; on any `RequestException` return `found = False`
with the error message.  Totality of this definition is the source's
worker-boundary catch. -/
def check_platform (nm : Str) (pd : PlatformData) (username : Str) (net : Net) :
    CheckResult :=
  let url := probeUrl pd username
  match net url with
  | .error e => ⟨nm, url, false, .error e⟩
  | .ok resp =>
    if resp.status = 200 then
      ⟨nm, url,
        ! pd.error.any (fun m => containsSub (lowerList m) (lowerList resp.body)),
        .success⟩
    else
      ⟨nm, url, false, .status resp.status⟩

/-- The specification's Verdict read off a `check_platform` result tuple
(refinement map, following the spec's Classifier wording): `found = True` is
Present; a `found = False` tuple whose message is a network error is
Indeterminate; any other `found = False` tuple is Absent. -/
def specVerdict (r : CheckResult) : Verdict :=
  match r.message with
  | .error _ => .indeterminate
  | _ => if r.found then .present else .absent

/-- `FindingNemo.run_search` (findingnemo.py lines 149–172) submits exactly one
`check_platform` future per platform; this is the multiset of results those
futures deliver, in submission order.  `as_completed` yields them in an
arbitrary order, modelled below by quantifying over permutations. -/
def run_search_results (platforms : List (Str × PlatformData)) (username : Str)
    (net : Net) : List CheckResult :=
  platforms.map (fun p => check_platform p.1 p.2 username net)

/-- Action taken by one iteration of `FindingNemo.interactive_mode`
(findingnemo.py lines 177–189) on a line of input. -/
inductive NemoAction
  | reprompt
  | quit
  | search (username : Str)
deriving DecidableEq, Repr

/-- One loop iteration of `interactive_mode`: strip the input; empty input
re-prompts (no probes); `exit`/`quit`/`q` (case-insensitive) ends the loop;
anything else is searched. -/
def interactive_step (input : Str) : NemoAction :=
  let u := strip input
  if u.isEmpty then .reprompt
  else if lowerList u = "exit".toList ∨ lowerList u = "quit".toList ∨
      lowerList u = "q".toList then .quit
  else .search u

/-! ## server_recon.py -/

/-- `validate_url` (server_recon.py lines 65–70): prepend `http://` unless the
URL already starts with `http://` or `https://`. -/
def validate_url (url : Str) : Str :=
  if startsWith httpScheme url || startsWith httpsScheme url then url
  else httpScheme ++ url

/-- Model of the external `urllib.parse.urljoin(url, path)` collaborator; its
exact resolution rules are out of scope, and no claim depends on the joined
URL's value — only on the oracle's answer for it. -/
def joinUrl (base path : Str) : Str := base ++ path

/-- `scan_port` (server_recon.py lines 132–141): one TCP connect with a 2 s
timeout; returns `(port, result == 0)`, and `(port, False)` if anything in the
try block raises. -/
def scan_port (connect : Tcp) (hostname : Str) (port : Nat) : Nat × Bool :=
  match connect hostname port with
  | .ok r => (port, r == 0)
  | .error _ => (port, false)

/-- The list of `future.result()` values `port_scan` in server_recon.py
(lines 143–167) drains: exactly one `scan_port` future per entry of the port
list, read in submission order. -/
def recon_port_results (connect : Tcp) (hostname : Str) (ports : List Nat) :
    List (Nat × Bool) :=
  ports.map (fun p => scan_port connect hostname p)

/-- `check_hidden_path` (server_recon.py lines 217–226): GET the joined URL
with a 5 s timeout; return `(test_url, status, len(content))` when the status
is one of 200/301/302/403, and `None` for every other status and for every
exception (the bare `except: pass`). -/
def check_hidden_path (url path : Str) (net : Net) : Option (Str × Nat × Nat) :=
  let test_url := joinUrl url path
  match net test_url with
  | .error _ => none
  | .ok resp =>
    if resp.status = 200 ∨ resp.status = 301 ∨ resp.status = 302 ∨
        resp.status = 403 then
      some (test_url, resp.status, resp.body.length)
    else
      none

/-- The specification's Verdict for one path probe (refinement map, following
the spec's wording): a returned tuple is Present, `None` is Absent. -/
def pathVerdict (r : Option (Str × Nat × Nat)) : Verdict :=
  if r.isSome then .present else .absent

/-- The list of `future.result()` values `find_hidden_paths`
(server_recon.py lines 228–250) drains: exactly one `check_hidden_path`
future per entry of the path list, read in submission order. -/
def find_hidden_paths_results (url : Str) (paths : List Str) (net : Net) :
    List (Option (Str × Nat × Nat)) :=
  paths.map (fun p => check_hidden_path url p net)

/-- Action taken by one iteration of `get_target`'s input loop
(server_recon.py lines 72–96). -/
inductive ReconAction
  | reprompt
  | accept (target : Str)
deriving DecidableEq, Repr

/-- One iteration of `get_target`: empty (stripped) input re-prompts and
issues no request; non-empty input is validated and one reachability GET is
issued — on success the target is accepted, on failure the user's
`Continue anyway?` answer decides.  The second component counts the HTTP
requests the iteration issued. -/
def get_target_step (input : Str) (net : Net) (continueChoice : Str) :
    ReconAction × Nat :=
  let t := strip input
  if t.isEmpty then (.reprompt, 0)
  else
    let v := validate_url t
    match net v with
    | .ok _ => (.accept v, 1)
    | .error _ =>
      if lowerList continueChoice = "y".toList then (.accept v, 1)
      else (.reprompt, 1)

/-! ## info.py -/

/-- `ServerInfoGatherer.port_scan` (info.py lines 79–91): sequentially try a
TCP connect per port with a 1 s timeout, appending the port when
`connect_ex` returns 0; any exception just skips the port (`continue`). -/
def port_scan (connect : Tcp) (ip : Str) : List Nat → List Nat
  | [] => []
  | p :: ps =>
    match connect ip p with
    | .ok r => if r = 0 then p :: port_scan connect ip ps else port_scan connect ip ps
    | .error _ => port_scan connect ip ps

/-- The default port list of `port_scan`'s keyword argument in info.py. -/
def info_default_ports : List Nat := [80, 443, 22, 21, 25, 53, 110, 143, 993, 995]

/-- Python `headers.get(key, default)` over the header association list. -/
def headerGet (hs : List (Str × Str)) (key dflt : Str) : Str :=
  match hs.find? (fun kv => kv.1 = key) with
  | some kv => kv.2
  | none => dflt

/-- The dictionary `get_http_headers` returns on success: status code, the
headers, the `Server` header (default `Unknown`), and which scheme answered. -/
structure HttpInfo where
  status_code : Nat
  headers : List (Str × Str)
  server : Str
  via_https : Bool
deriving DecidableEq, Repr

/-- `ServerInfoGatherer.get_http_headers` (info.py lines 111–133): GET
`http://ip`; on any exception GET `https://ip`; on any exception return
`None`.  A received response of either scheme, whatever its status code, is
returned as an `HttpInfo`. -/
def get_http_headers (ip : Str) (net : Net) : Option HttpInfo :=
  match net (httpScheme ++ ip) with
  | .ok r => some ⟨r.status, r.headers, headerGet r.headers "Server".toList "Unknown".toList, false⟩
  | .error _ =>
    match net (httpsScheme ++ ip) with
    | .ok r => some ⟨r.status, r.headers, headerGet r.headers "Server".toList "Unknown".toList, true⟩
    | .error _ => none

/-- The specification's Verdict for the header-fetch probe (refinement map,
following the spec's wording): any received response is Present, total
connection failure is Indeterminate. -/
def headersVerdict (r : Option HttpInfo) : Verdict :=
  if r.isSome then .present else .indeterminate

/-- IP keys of the geolocation cache. -/
abbrev Ip := Str

/-- Geolocation payload (the parsed JSON body of ip-api.com). -/
abbrev Geo := Str

/-- `self.geo_cache`: a Python dict modelled as an association list whose
most recent insertion shadows earlier ones. -/
abbrev GeoCache := List (Ip × Geo)

/-- Dict lookup `ip in cache` / `cache[ip]`. -/
def cacheLookup (c : GeoCache) (ip : Ip) : Option Geo :=
  match c.find? (fun kv => kv.1 = ip) with
  | some kv => some kv.2
  | none => none

/-- Dict assignment `cache[ip] = d`. -/
def cacheInsert (c : GeoCache) (ip : Ip) (d : Geo) : GeoCache := (ip, d) :: c

/-- A geolocation oracle: what `requests.get("http://ip-api.com/json/" + ip)`
yields — a fault, or the status code together with the parsed payload. -/
abbrev GeoNet := Ip → Except NetError (Nat × Geo)

/-- Result of one sequential `get_geolocation` call: the returned value, the
cache afterwards, and how many outbound lookup requests were issued. -/
structure GeoResult where
  value : Option Geo
  cache : GeoCache
  outboundCalls : Nat
deriving DecidableEq, Repr

/-- `ServerInfoGatherer.get_geolocation` (info.py lines 64–77), run
sequentially: return the cached value on a hit; otherwise issue one outbound
request, store and return the payload on a 200 response, and return `None`
(cache unchanged) on any other status or exception. -/
def get_geolocation (net : GeoNet) (cache : GeoCache) (ip : Ip) : GeoResult :=
  match cacheLookup cache ip with
  | some d => ⟨some d, cache, 0⟩
  | none =>
    match net ip with
    | .ok (code, data) =>
      if code = 200 then ⟨some data, cacheInsert cache ip data, 1⟩
      else ⟨none, cache, 1⟩
    | .error _ => ⟨none, cache, 1⟩

/-- Where one thread stands inside `get_geolocation`'s unsynchronized
check-then-act (info.py lines 66–74): about to check the cache; past a miss
and about to issue the outbound request; holding a 200 payload and about to
write the cache; or finished with its return value. -/
inductive GeoPhase
  | atCheck
  | atCall
  | atWrite (d : Geo)
  | finished (v : Option Geo)
deriving DecidableEq, Repr

/-- Two threads concurrently inside `get_geolocation` for the same key,
sharing the cache; `calls` counts outbound lookup requests issued so far. -/
structure GeoPair where
  cache : GeoCache
  a : GeoPhase
  b : GeoPhase
  calls : Nat
deriving DecidableEq, Repr

/-- Advance one thread of the pair by one atomic step of `get_geolocation`
(the dict read, the outbound request, and the dict write are distinct
bytecode steps in the source, with no lock between them). -/
def geoPhaseStep (net : GeoNet) (ip : Ip) (cache : GeoCache) (calls : Nat) :
    GeoPhase → GeoPhase × GeoCache × Nat
  | .atCheck =>
    match cacheLookup cache ip with
    | some d => (.finished (some d), cache, calls)
    | none => (.atCall, cache, calls)
  | .atCall =>
    match net ip with
    | .ok (code, data) =>
      if code = 200 then (.atWrite data, cache, calls + 1)
      else (.finished none, cache, calls + 1)
    | .error _ => (.finished none, cache, calls + 1)
  | .atWrite d => (.finished (some d), cacheInsert cache ip d, calls)
  | .finished v => (.finished v, cache, calls)

/-- Run one scheduler step: `true` advances thread `a`, `false` thread `b`. -/
def geoPairStep (net : GeoNet) (ip : Ip) (which : Bool) (s : GeoPair) : GeoPair :=
  if which then
    let (a', c', n') := geoPhaseStep net ip s.cache s.calls s.a
    ⟨c', a', s.b, n'⟩
  else
    let (b', c', n') := geoPhaseStep net ip s.cache s.calls s.b
    ⟨c', s.a, b', n'⟩

/-- Run a whole schedule (a list of which-thread choices) from a state. -/
def geoRun (net : GeoNet) (ip : Ip) (sched : List Bool) (s : GeoPair) : GeoPair :=
  sched.foldl (fun st w => geoPairStep net ip w st) s

/-- Target selection in `main` of info.py (lines 348–352): the stripped
hostname, with empty input replaced by the default `google.com` — not
rejected. -/
def info_target (input : Str) : Str :=
  let h := strip input
  if h.isEmpty then "google.com".toList else h

/-- The (hostname, port) pairs one `gather_comprehensive_info` pass of
info.py probes over TCP for the given raw user input: `main` always proceeds
to `continuous_monitoring`, whose first pass runs `port_scan` on the resolved
target over the default port list. -/
def info_pass_probe_targets (input : Str) : List (Str × Nat) :=
  info_default_ports.map (fun p => (info_target input, p))

/-! ## Helper lemmas -/

/-- A list is an initial segment of itself followed by anything. -/
theorem startsWith_append (xs ys : Str) : startsWith xs (xs ++ ys) = true := by
  induction xs with
  | nil => rfl
  | cons a as ih => simp [startsWith, ih]

/-- `port_scan` returns an ordered subsequence of its input port list. -/
theorem port_scan_sublist (connect : Tcp) (ip : Str) (ports : List Nat) :
    (port_scan connect ip ports).Sublist ports := by
  induction ports with
  | nil => simp [port_scan]
  | cons p ps ih =>
    simp only [port_scan]
    cases hc : connect ip p with
    | ok r =>
      by_cases hr : r = 0
      · simpa [hr] using ih.cons₂ p
      · simpa [hr] using ih.cons p
    | error e => exact ih.cons p

/-- Looking up a key just inserted into the geolocation cache returns the
inserted payload (most recent dict assignment wins). -/
theorem cacheLookup_cacheInsert (c : GeoCache) (ip : Ip) (d : Geo) :
    cacheLookup (cacheInsert c ip d) ip = some d := by
  simp [cacheLookup, cacheInsert, List.find?]

/-! ## Claims -/

/-- C9: `validate_url` returns its input unchanged exactly when the input
already starts with `http://` or `https://`; otherwise it prepends
`http://`; consequently it is idempotent. -/
theorem c9_validate_url_idempotent (url : Str) :
    (validate_url url = url ↔
      (startsWith httpScheme url = true ∨ startsWith httpsScheme url = true)) ∧
    (startsWith httpScheme url = false → startsWith httpsScheme url = false →
      validate_url url = httpScheme ++ url) ∧
    validate_url (validate_url url) = validate_url url := by
  by_cases h1 : startsWith httpScheme url = true
  · refine ⟨by simp [validate_url, h1], by simp [h1], ?_⟩
    simp [validate_url, h1]
  · by_cases h2 : startsWith httpsScheme url = true
    · refine ⟨by simp [validate_url, h2], by simp [h2], ?_⟩
      simp [validate_url, h2]
    · have hv : validate_url url = httpScheme ++ url := by
        simp [validate_url, h1, h2]
      have hne : httpScheme ++ url ≠ url := by
        intro heq
        have := congrArg List.length heq
        simp [httpScheme] at this
        omega
      refine ⟨?_, fun _ _ => hv, ?_⟩
      · rw [hv]
        constructor
        · intro heq; exact absurd heq hne
        · intro hor
          rcases hor with hx | hx
          · exact absurd hx h1
          · exact absurd hx h2
      · rw [hv]
        have : startsWith httpScheme (httpScheme ++ url) = true :=
          startsWith_append httpScheme url
        simp [validate_url, this]

/-- C9 witness: `validate_url` leaves a well-formed URL alone, prepends the
scheme to a bare host, and is idempotent on it. -/
theorem c9_validate_url_idempotent_witness :
    (validate_url ("http://a.com".toList) = "http://a.com".toList ↔
      (startsWith httpScheme ("http://a.com".toList) = true ∨
        startsWith httpsScheme ("http://a.com".toList) = true)) ∧
    validate_url ("a.com".toList) = httpScheme ++ "a.com".toList ∧
    validate_url (validate_url ("a.com".toList)) = validate_url ("a.com".toList) :=
  ⟨(c9_validate_url_idempotent ("http://a.com".toList)).1,
    (c9_validate_url_idempotent ("a.com".toList)).2.1 (by decide) (by decide),
    (c9_validate_url_idempotent ("a.com".toList)).2.2⟩

/-- C10: `port_scan` of info.py returns an ordered subsequence of its input
port list (so every returned port occurs in the input, relative order is
preserved and multiplicities are bounded), and it is total — with an oracle
that faults on every connect it simply returns the empty list instead of
raising. -/
theorem c10_port_scan_ordered_subsequence (connect : Tcp) (ip : Str)
    (ports : List Nat) (e : NetError) :
    (port_scan connect ip ports).Sublist ports ∧
    (∀ p, (port_scan connect ip ports).count p ≤ ports.count p) ∧
    port_scan (fun _ _ => .error e) ip ports = [] := by
  refine ⟨port_scan_sublist connect ip ports,
    fun p => (port_scan_sublist connect ip ports).count_le p, ?_⟩
  induction ports with
  | nil => rfl
  | cons p ps ih => simpa [port_scan] using ih

/-- C10 witness: a concrete scan over `[80, 81, 80]` with port 80 open keeps
order and multiplicity, and the all-faults oracle yields `[]`. -/
theorem c10_port_scan_ordered_subsequence_witness :
    (port_scan (fun _ p => if p = 80 then Except.ok 0 else Except.ok 111)
        ("h".toList) [80, 81, 80]).Sublist [80, 81, 80] ∧
    port_scan (fun _ _ => Except.error NetError.connectionTimeout)
        ("h".toList) [80, 81, 80] = [] :=
  ⟨(c10_port_scan_ordered_subsequence
      (fun _ p => if p = 80 then Except.ok 0 else Except.ok 111)
      ("h".toList) [80, 81, 80] NetError.connectionTimeout).1,
    (c10_port_scan_ordered_subsequence
      (fun _ _ => Except.error NetError.connectionTimeout)
      ("h".toList) [80, 81, 80] NetError.connectionTimeout).2.2⟩

/-- C3 counterexample: the hidden-path worker's terminal outcome carries no
reason string.  A DNS failure, a connection timeout and a plain 404 response
all produce the same bare `none` (server_recon.py's `except: pass` followed
by `return None`), so no reason — indeed no trace of the fault at all — is
carried by the outcome, refuting the claim that every taxonomy fault becomes
a terminal outcome "carrying a reason string". -/
theorem c3_reason_string_counterexample :
    check_hidden_path ['h'] ['a'] (fun _ => .error .dnsFailure) = none ∧
    check_hidden_path ['h'] ['a'] (fun _ => .error .connectionTimeout) = none ∧
    check_hidden_path ['h'] ['a'] (fun _ => .ok ⟨404, [], []⟩) = none ∧
    check_hidden_path ['h'] ['a'] (fun _ => .error .dnsFailure) =
      check_hidden_path ['h'] ['a'] (fun _ => .ok ⟨404, [], []⟩) := by
  refine ⟨rfl, rfl, by decide, by decide⟩

/-- C3 (amended): every network-level fault of the taxonomy is caught inside
the worker function and converted into a single terminal outcome — no fault
propagates out of either worker, and no individual probe failure aborts the
sibling probes or the scan — but only `check_platform`'s outcome carries a
reason string (the `Error: …` message in its tuple); `check_hidden_path`'s
terminal outcome is the bare `None`, carrying no reason.  Both workers are
total Lean functions over all oracle outcomes, so no fault can propagate;
and for an arbitrary oracle (faulting or not) every submitted probe still
contributes exactly one result. -/
theorem c3_worker_fault_containment (e : NetError) (nm : Str) (pd : PlatformData)
    (username url path : Str) (platforms : List (Str × PlatformData))
    (net : Net) (paths : List Str) :
    check_platform nm pd username (fun _ => .error e) =
      ⟨nm, probeUrl pd username, false, .error e⟩ ∧
    check_hidden_path url path (fun _ => .error e) = none ∧
    (run_search_results platforms username net).length = platforms.length ∧
    (find_hidden_paths_results url paths net).length = paths.length := by
  refine ⟨rfl, rfl, ?_, ?_⟩ <;>
    simp [run_search_results, find_hidden_paths_results]

/-- C3 witness: a DNS failure against a concrete platform yields the terminal
error tuple, and a timed-out hidden-path probe yields `None`. -/
theorem c3_worker_fault_containment_witness :
    check_platform ("GitHub".toList) ⟨"https://github.com/".toList, [], [[Char.ofNat 52]]⟩
        ("ada".toList) (fun _ => .error NetError.dnsFailure) =
      ⟨"GitHub".toList, probeUrl ⟨"https://github.com/".toList, [], [[Char.ofNat 52]]⟩ ("ada".toList),
        false, .error NetError.dnsFailure⟩ ∧
    check_hidden_path ("http://h".toList) ("admin".toList)
        (fun _ => .error NetError.connectionTimeout) = none :=
  ⟨(c3_worker_fault_containment NetError.dnsFailure ("GitHub".toList)
      ⟨"https://github.com/".toList, [], [[Char.ofNat 52]]⟩ ("ada".toList)
      ("http://h".toList) ("admin".toList) [] (fun _ => .error NetError.dnsFailure) []).1,
    (c3_worker_fault_containment NetError.connectionTimeout ("GitHub".toList)
      ⟨"https://github.com/".toList, [], [[Char.ofNat 52]]⟩ ("ada".toList)
      ("http://h".toList) ("admin".toList) [] (fun _ => .error NetError.dnsFailure) []).2.1⟩

/-- Two concrete platforms for witnesses. -/
def demoPlatforms : List (Str × PlatformData) :=
  [(['A'], ⟨"https://a/".toList, [], [['n', 'o']]⟩),
   (['B'], ⟨"https://b/".toList, [], []⟩)]

/-- A concrete HTTP oracle answering 200 with body `ok` everywhere. -/
def demoNet : Net := fun _ => .ok ⟨200, ['o', 'k'], []⟩

/-- Two concrete hidden paths for witnesses. -/
def demoPaths : List Str := [['a'], ['b']]

/-- Two concrete ports for witnesses. -/
def demoPorts : List Nat := [80, 443]

/-- A concrete TCP oracle: port 80 connects, everything else is refused. -/
def demoConnect : Tcp := fun _ p =>
  if p = 80 then .ok 0 else .error .connectionRefused

/-- C1: every scan over N probe specifications produces exactly N results —
one per submitted probe (no drops, no duplicates, counts preserved), for
platform checks, hidden-path checks and port probes alike, whatever the
oracle answers (including faults) and in whatever order the futures complete
(worker count and latency only permute the completion order, quantified here
over all permutations of the delivered results). -/
theorem c1_scan_verdict_cardinality
    (platforms : List (Str × PlatformData)) (username : Str) (net : Net)
    (url host : Str) (paths : List Str) (connect : Tcp) (ports : List Nat)
    (c₁ : List CheckResult) (c₂ : List (Option (Str × Nat × Nat)))
    (c₃ : List (Nat × Bool))
    (h₁ : c₁.Perm (run_search_results platforms username net))
    (h₂ : c₂.Perm (find_hidden_paths_results url paths net))
    (h₃ : c₃.Perm (recon_port_results connect host ports)) :
    c₁.length = platforms.length ∧ c₂.length = paths.length ∧
    c₃.length = ports.length ∧
    ∀ r, c₁.count r = (run_search_results platforms username net).count r := by
  refine ⟨?_, ?_, ?_, fun r => h₁.count_eq r⟩
  · simpa [run_search_results] using h₁.length_eq
  · simpa [find_hidden_paths_results] using h₂.length_eq
  · simpa [recon_port_results] using h₃.length_eq

/-- C1 witness: results collected in reversed (out-of-submission) order still
number exactly as many as the submitted probes, for all three probe kinds. -/
theorem c1_scan_verdict_cardinality_witness :
    (run_search_results demoPlatforms ['u'] demoNet).reverse.length =
      demoPlatforms.length ∧
    (find_hidden_paths_results ['h'] demoPaths demoNet).reverse.length =
      demoPaths.length ∧
    (recon_port_results demoConnect ['h'] demoPorts).reverse.length =
      demoPorts.length :=
  have h := c1_scan_verdict_cardinality demoPlatforms ['u'] demoNet
    ['h'] ['h'] demoPaths demoConnect demoPorts
    (run_search_results demoPlatforms ['u'] demoNet).reverse
    (find_hidden_paths_results ['h'] demoPaths demoNet).reverse
    (recon_port_results demoConnect ['h'] demoPorts).reverse
    (List.reverse_perm _) (List.reverse_perm _) (List.reverse_perm _)
  ⟨h.1, h.2.1, h.2.2.1⟩

/-- C2: the HTTP-existence verdict of `check_platform` is Present exactly
when the response status is 200 and no configured absence marker occurs
case-insensitively in the body; it is Absent when status is 200 and some
marker matches and when the status is anything other than 200; and it is
Indeterminate (not Absent) on every timeout or network error. -/
theorem c2_http_existence_classification (nm : Str) (pd : PlatformData)
    (username : Str) (net : Net) :
    (specVerdict (check_platform nm pd username net) = .present ↔
      ∃ resp, net (probeUrl pd username) = .ok resp ∧ resp.status = 200 ∧
        ∀ m ∈ pd.error, containsSub (lowerList m) (lowerList resp.body) = false) ∧
    (∀ resp, net (probeUrl pd username) = .ok resp → resp.status = 200 →
      (∃ m ∈ pd.error, containsSub (lowerList m) (lowerList resp.body) = true) →
      specVerdict (check_platform nm pd username net) = .absent) ∧
    (∀ resp, net (probeUrl pd username) = .ok resp → resp.status ≠ 200 →
      specVerdict (check_platform nm pd username net) = .absent) ∧
    (∀ e, net (probeUrl pd username) = .error e →
      specVerdict (check_platform nm pd username net) = .indeterminate) := by
  cases h : net (probeUrl pd username) with
  | error e =>
    refine ⟨?_, ?_, ?_, ?_⟩
    · simp [check_platform, specVerdict, h]
    · intro resp hr; simp at hr
    · intro resp hr; simp at hr
    · intro e' _; simp [check_platform, specVerdict, h]
  | ok resp =>
    by_cases hs : resp.status = 200
    · by_cases ha : pd.error.any
          (fun m => containsSub (lowerList m) (lowerList resp.body)) = true
      · have hv : specVerdict (check_platform nm pd username net) = .absent := by
          simp [check_platform, specVerdict, h, hs, ha]
        refine ⟨?_, fun _ _ _ _ => hv, fun _ _ _ => hv, fun e he => ?_⟩
        · rw [hv]
          constructor
          · intro hc; cases hc
          · rintro ⟨r, hr, _, hall⟩
            rw [Except.ok.injEq] at hr
            subst hr
            rcases List.any_eq_true.mp ha with ⟨m, hm, hmt⟩
            rw [hall m hm] at hmt
            cases hmt
        · simp at he
      · have hv : specVerdict (check_platform nm pd username net) = .present := by
          simp [check_platform, specVerdict, h, hs, ha]
        have hfalse : ∀ m ∈ pd.error,
            containsSub (lowerList m) (lowerList resp.body) = false := by
          intro m hm
          by_contra hc
          exact ha (List.any_eq_true.mpr ⟨m, hm, by simpa using hc⟩)
        refine ⟨?_, ?_, ?_, fun e he => ?_⟩
        · rw [hv]
          exact ⟨fun _ => ⟨resp, rfl, hs, hfalse⟩, fun _ => rfl⟩
        · rintro r hr h200 ⟨m, hm, hmt⟩
          rw [Except.ok.injEq] at hr
          subst hr
          rw [hfalse m hm] at hmt
          cases hmt
        · intro r hr hne
          rw [Except.ok.injEq] at hr
          subst hr
          exact absurd hs hne
        · simp at he
    · have hv : specVerdict (check_platform nm pd username net) = .absent := by
        simp [check_platform, specVerdict, h, hs]
      refine ⟨?_, fun _ _ _ _ => hv, fun _ _ _ => hv, fun e he => ?_⟩
      · rw [hv]
        constructor
        · intro hc; cases hc
        · rintro ⟨r, hr, h200, _⟩
          rw [Except.ok.injEq] at hr
          subst hr
          exact absurd h200 hs
      · simp at he

/-- Platform entry with the single absence marker `no`, for the C2 witness. -/
def demoPd : PlatformData := ⟨"https://x/".toList, [], [['n', 'o']]⟩

/-- C2 witness: a clean 200 body is Present; a 200 body containing the marker
(in different case, mid-string) is Absent; a 404 is Absent; a connection
timeout is Indeterminate. -/
theorem c2_http_existence_classification_witness :
    specVerdict (check_platform ['P'] demoPd ['u']
      (fun _ => .ok ⟨200, ['h', 'i'], []⟩)) = .present ∧
    specVerdict (check_platform ['P'] demoPd ['u']
      (fun _ => .ok ⟨200, ['a', ' ', 'N', 'O', '!'], []⟩)) = .absent ∧
    specVerdict (check_platform ['P'] demoPd ['u']
      (fun _ => .ok ⟨404, [], []⟩)) = .absent ∧
    specVerdict (check_platform ['P'] demoPd ['u']
      (fun _ => .error .connectionTimeout)) = .indeterminate :=
  ⟨(c2_http_existence_classification ['P'] demoPd ['u'] _).1.mpr
      ⟨⟨200, ['h', 'i'], []⟩, rfl, rfl, by decide⟩,
    (c2_http_existence_classification ['P'] demoPd ['u'] _).2.1
      ⟨200, ['a', ' ', 'N', 'O', '!'], []⟩ rfl rfl ⟨['n', 'o'], by decide, by decide⟩,
    (c2_http_existence_classification ['P'] demoPd ['u'] _).2.2.1
      ⟨404, [], []⟩ rfl (by decide),
    (c2_http_existence_classification ['P'] demoPd ['u'] _).2.2.2
      NetError.connectionTimeout rfl⟩

/-- C4: the hidden-path verdict is Present exactly when the response status
is one of 200/301/302/403, and Absent for every other status and for every
error or timeout. -/
theorem c4_path_probe_classification (url path : Str) (net : Net) :
    (pathVerdict (check_hidden_path url path net) = .present ↔
      ∃ resp, net (joinUrl url path) = .ok resp ∧
        (resp.status = 200 ∨ resp.status = 301 ∨ resp.status = 302 ∨
          resp.status = 403)) ∧
    (pathVerdict (check_hidden_path url path net) = .absent ↔
      ¬ ∃ resp, net (joinUrl url path) = .ok resp ∧
        (resp.status = 200 ∨ resp.status = 301 ∨ resp.status = 302 ∨
          resp.status = 403)) := by
  cases h : net (joinUrl url path) with
  | error e => constructor <;> simp [check_hidden_path, pathVerdict, h]
  | ok resp =>
    by_cases hs : resp.status = 200 ∨ resp.status = 301 ∨ resp.status = 302 ∨
        resp.status = 403
    · constructor <;> simp [check_hidden_path, pathVerdict, h, hs]
    · constructor <;> simp [check_hidden_path, pathVerdict, h, hs]

/-- C4 witness: a 301 redirect is Present; a 404 is Absent; a refused
connection is Absent. -/
theorem c4_path_probe_classification_witness :
    pathVerdict (check_hidden_path ['h'] ['a']
      (fun _ => .ok ⟨301, [], []⟩)) = .present ∧
    pathVerdict (check_hidden_path ['h'] ['a']
      (fun _ => .ok ⟨404, [], []⟩)) = .absent ∧
    pathVerdict (check_hidden_path ['h'] ['a']
      (fun _ => .error .connectionRefused)) = .absent := by
  refine ⟨?_, ?_, ?_⟩
  · exact (c4_path_probe_classification ['h'] ['a'] _).1.mpr
      ⟨⟨301, [], []⟩, rfl, by decide⟩
  · refine (c4_path_probe_classification ['h'] ['a'] _).2.mpr ?_
    rintro ⟨r, hr, hc⟩
    rw [Except.ok.injEq] at hr
    subst hr
    simp at hc
  · refine (c4_path_probe_classification ['h'] ['a'] _).2.mpr ?_
    rintro ⟨r, hr, _⟩
    cases hr

/-- Concrete scenario host for C5. -/
def exampleHost : Str := "example.com".toList

/-- Concrete scenario oracle for C5: port 80 accepts, port 81 is refused
(`connect_ex` result 111), everything else times out. -/
def exampleConnect : Tcp := fun _ p =>
  if p = 80 then .ok 0 else if p = 81 then .ok 111 else .error .connectionTimeout

/-- C5: a TCP-connect probe is Present (open) exactly when the connection
attempt completes within the timeout (`connect_ex` returns 0), Absent on
refusal or timeout; in the concrete scenario with port 80 open and 81/9999
closed, scanning {80, 81, 9999} yields exactly the three verdicts
80 ↦ open, 81 ↦ closed, 9999 ↦ closed. -/
theorem c5_tcp_connect_classification (connect : Tcp) (host : Str) (port : Nat) :
    ((scan_port connect host port).2 = true ↔ connect host port = .ok 0) ∧
    (scan_port connect host port).1 = port ∧
    recon_port_results exampleConnect exampleHost [80, 81, 9999] =
      [(80, true), (81, false), (9999, false)] ∧
    port_scan exampleConnect exampleHost [80, 81, 9999] = [80] := by
  refine ⟨?_, ?_, by decide, by decide⟩
  · cases h : connect host port with
    | ok r => simp [scan_port, h]
    | error e => simp [scan_port, h]
  · cases h : connect host port <;> simp [scan_port, h]

/-- C5 witness: port 80 classifies open and port 81 closed under the
scenario oracle. -/
theorem c5_tcp_connect_classification_witness :
    (scan_port exampleConnect exampleHost 80).2 = true ∧
    (scan_port exampleConnect exampleHost 81).2 = false := by
  constructor
  · exact (c5_tcp_connect_classification exampleConnect exampleHost 80).1.mpr
      (by decide)
  · have h := (c5_tcp_connect_classification exampleConnect exampleHost 81).1
    have hne : ¬ (scan_port exampleConnect exampleHost 81).2 = true := by
      rw [h]; decide
    simpa using hne

/-- C6: the header-fetch probe is Present whenever any HTTP or HTTPS
response is received — whatever its status code — and Indeterminate exactly
when both connection attempts fail; presence depends only on whether the two
oracle calls succeed, never on the captured status/header payload. -/
theorem c6_header_fetch_classification (ip : Str) (net : Net) :
    (headersVerdict (get_http_headers ip net) = .present ↔
      isOkE (net (httpScheme ++ ip)) = true ∨
        isOkE (net (httpsScheme ++ ip)) = true) ∧
    (headersVerdict (get_http_headers ip net) = .indeterminate ↔
      isOkE (net (httpScheme ++ ip)) = false ∧
        isOkE (net (httpsScheme ++ ip)) = false) ∧
    (∀ r, net (httpScheme ++ ip) = .ok r →
      headersVerdict (get_http_headers ip net) = .present) ∧
    (∀ r, net (httpsScheme ++ ip) = .ok r →
      headersVerdict (get_http_headers ip net) = .present) := by
  cases h1 : net (httpScheme ++ ip) with
  | ok r1 =>
    refine ⟨?_, ?_, ?_, ?_⟩ <;>
      simp [get_http_headers, headersVerdict, isOkE, h1]
  | error e1 =>
    cases h2 : net (httpsScheme ++ ip) with
    | ok r2 =>
      refine ⟨?_, ?_, ?_, ?_⟩ <;>
        simp [get_http_headers, headersVerdict, isOkE, h1, h2]
    | error e2 =>
      refine ⟨?_, ?_, ?_, ?_⟩ <;>
        simp [get_http_headers, headersVerdict, isOkE, h1, h2]

/-- C6 witness: a 500 response over HTTPS only is still Present; total
connection failure is Indeterminate. -/
theorem c6_header_fetch_classification_witness :
    headersVerdict (get_http_headers ['i']
      (fun u => if startsWith httpsScheme u then .ok ⟨500, [], []⟩
        else .error .connectionRefused)) = .present ∧
    headersVerdict (get_http_headers ['i']
      (fun _ => .error .dnsFailure)) = .indeterminate :=
  ⟨(c6_header_fetch_classification ['i'] _).2.2.2 ⟨500, [], []⟩ (by decide),
    (c6_header_fetch_classification ['i'] _).2.1.mpr ⟨rfl, rfl⟩⟩

/-- C7 counterexample: info.py does not reject an empty target.  `main`
(info.py lines 348–352) replaces an empty hostname with the default
`google.com` and proceeds to continuous monitoring, whose first pass still
issues the ten default TCP port probes — so the empty input is neither
rejected before probes are dispatched nor a halting condition, contradicting
the claim as stated. -/
theorem c7_empty_target_counterexample :
    info_target [] = "google.com".toList ∧
    (info_pass_probe_targets []).length = 10 ∧
    info_pass_probe_targets [] ≠ [] := by decide

/-- C7 (amended): in findingnemo's interactive mode and in server_recon's
`get_target`, an input that strips to empty is rejected by re-prompting,
with no probe issued; in info.py an empty hostname is not rejected — it is
replaced by the default target `google.com` and the monitoring pass proceeds
to probe the default port list against that default target. -/
theorem c7_amended_empty_target_handling (s : Str) (net : Net) (choice : Str) :
    (strip s = [] → interactive_step s = .reprompt) ∧
    (strip s = [] → get_target_step s net choice = (.reprompt, 0)) ∧
    (strip s = [] → info_target s = "google.com".toList ∧
      info_pass_probe_targets s =
        info_default_ports.map (fun p => ("google.com".toList, p))) := by
  refine ⟨?_, ?_, ?_⟩ <;> intro hs
  · simp [interactive_step, hs]
  · simp [get_target_step, hs]
  · simp [info_target, info_pass_probe_targets, hs]

/-- C7 witness: a single blank input line re-prompts both interactive tools
without a request, and info.py falls back to the default host. -/
theorem c7_amended_empty_target_handling_witness :
    interactive_step [' '] = NemoAction.reprompt ∧
    get_target_step [' '] (fun _ => .error .dnsFailure) [] =
      (ReconAction.reprompt, 0) ∧
    info_target [' '] = "google.com".toList :=
  have h := c7_amended_empty_target_handling [' ']
    (fun _ => .error .dnsFailure) []
  ⟨h.1 (by decide), h.2.1 (by decide), (h.2.2 (by decide)).1⟩

/-- A geolocation oracle answering 200 with payload `g` for every key. -/
def geoDemoNet : GeoNet := fun _ => .ok (200, ['g'])

/-- A concrete cache key for the C8 runs. -/
def geoDemoIp : Ip := ['1']

/-- C8 counterexample: `get_geolocation`'s check-then-act has no lock, so on
a concurrent miss there is no single winner.  Two workers both inside
`get_geolocation` for the same uncached key, interleaved as A-reads B-reads
A-calls A-writes B-calls B-writes, each issue an outbound lookup: the run
performs 2 outbound calls, refuting "at most one outbound lookup call". -/
theorem c8_concurrent_single_winner_counterexample :
    (geoRun geoDemoNet geoDemoIp [true, false, true, true, false, false]
        ⟨[], .atCheck, .atCheck, 0⟩).calls = 2 ∧
    ¬ (geoRun geoDemoNet geoDemoIp [true, false, true, true, false, false]
        ⟨[], .atCheck, .atCheck, 0⟩).calls ≤ 1 ∧
    (geoRun geoDemoNet geoDemoIp [true, false, true, true, false, false]
        ⟨[], .atCheck, .atCheck, 0⟩).a = .finished (some ['g']) ∧
    (geoRun geoDemoNet geoDemoIp [true, false, true, true, false, false]
        ⟨[], .atCheck, .atCheck, 0⟩).b = .finished (some ['g']) := by decide

/-- C8 (amended): run sequentially, `get_geolocation` is lookup-or-populate:
a cache hit returns the cached value with no outbound call, and after one
successful (status-200) lookup populates the cache for a key, every later
call for that key — under any oracle — returns that same cached value with
no further outbound call.  Only the concurrent-miss single-winner guarantee
fails (the dict check and write are not atomic), as the counterexample
shows. -/
theorem c8_amended_sequential_cache (net : GeoNet) (c : GeoCache) (ip : Ip)
    (d data : Geo) :
    (cacheLookup c ip = some d →
      get_geolocation net c ip = ⟨some d, c, 0⟩) ∧
    (cacheLookup c ip = none → net ip = .ok (200, data) →
      get_geolocation net c ip = ⟨some data, cacheInsert c ip data, 1⟩ ∧
      ∀ net', get_geolocation net' (cacheInsert c ip data) ip =
        ⟨some data, cacheInsert c ip data, 0⟩) := by
  constructor
  · intro hh; simp [get_geolocation, hh]
  · intro hm hn
    refine ⟨by simp [get_geolocation, hm, hn], fun net' => ?_⟩
    simp [get_geolocation, cacheLookup_cacheInsert]

/-- C8 witness: a hit on a one-entry cache issues no outbound call, and a
miss on the empty cache issues exactly one and populates the cache. -/
theorem c8_amended_sequential_cache_witness :
    get_geolocation geoDemoNet [(geoDemoIp, ['g'])] geoDemoIp =
      ⟨some ['g'], [(geoDemoIp, ['g'])], 0⟩ ∧
    get_geolocation geoDemoNet [] geoDemoIp =
      ⟨some ['g'], cacheInsert [] geoDemoIp ['g'], 1⟩ :=
  have h1 := c8_amended_sequential_cache geoDemoNet
    [(geoDemoIp, ['g'])] geoDemoIp ['g'] ['g']
  have h2 := c8_amended_sequential_cache geoDemoNet
    ([] : GeoCache) geoDemoIp ['g'] ['g']
  ⟨h1.1 (by decide), (h2.2 (by decide) (by decide)).1⟩

end WebInfo
